import Mathlib

/-!
Shallow embedding of the schedule combination engine of
`src/js/services/ScheduleGeneratorService.js` (repository Poletron/Horarios),
together with theorems settling the frozen claims about it.

JavaScript values are modelled as follows: strings are `String`, arrays are
`List`, possibly-null/undefined values are `Option`, numbers produced by
`parseInt` are `Option Nat` (`none` standing for `NaN`), and objects are
structures.  Fields the engine never reads are omitted.  The JS keyword-clash
field `section` of a schedule item is named `sect` here.
-/

/-- One `meetingTime` object: seven weekday flags plus begin/end time strings
in `"HHMM"` format (`none` models a null/undefined time). -/
structure MeetingTime where
  monday : Bool
  tuesday : Bool
  wednesday : Bool
  thursday : Bool
  friday : Bool
  saturday : Bool
  sunday : Bool
  beginTime : Option String
  endTime : Option String
deriving DecidableEq

/-- One entry of a section's `meetingsFaculty` array; `meetingTime` may be
null/undefined, which the engine skips. -/
structure Meeting where
  meetingTime : Option MeetingTime
deriving DecidableEq

/-- One schedulable section, with the fields the engine reads. -/
structure Section where
  id : String
  openSection : Bool
  campusDescription : String
  courseReferenceNumber : String
  meetingsFaculty : List Meeting
deriving DecidableEq

/-- One subject grouping its alternative sections. -/
structure Subject where
  id : String
  subject : String
  courseNumber : String
  courseTitle : String
  creditHourLow : Nat
  sections : List Section
deriving DecidableEq

/-- One entry of a schedule: a subject together with its chosen section
(the JS object literal pushed by the generators). -/
structure ScheduleItem where
  subjectId : String
  subject : String
  courseNumber : String
  courseTitle : String
  creditHourLow : Nat
  sect : Section
deriving DecidableEq

/-- The maximal leading run of decimal digits of a character list
(what JS `parseInt` consumes on a digit string). -/
def leadDigits : List Char → List Char
  | [] => []
  | c :: cs => if c.isDigit then c :: leadDigits cs else []

/-- Decimal value of a digit list, most significant digit first. -/
def digitsToNat (cs : List Char) : Nat :=
  cs.foldl (fun acc c => acc * 10 + (c.toNat - 48)) 0

/-- The whitespace characters JS `parseInt` skips before reading a number
(ECMAScript WhiteSpace and LineTerminator code points). -/
def jsWhitespace (c : Char) : Bool :=
  decide (c.toNat = 9 ∨ c.toNat = 10 ∨ c.toNat = 11 ∨ c.toNat = 12 ∨ c.toNat = 13 ∨
    c.toNat = 32 ∨ c.toNat = 160 ∨ c.toNat = 5760 ∨
    (8192 ≤ c.toNat ∧ c.toNat ≤ 8202) ∨
    c.toNat = 8232 ∨ c.toNat = 8233 ∨ c.toNat = 8239 ∨ c.toNat = 8287 ∨
    c.toNat = 12288 ∨ c.toNat = 65279)

/-- JS `parseInt(str, 10)`: skip leading whitespace, read an optional sign,
then the maximal run of decimal digits; `none` models a `NaN` result (no
digit after the optional sign). -/
def parseIntJS (cs : List Char) : Option Int :=
  match cs.dropWhile jsWhitespace with
  | [] => none
  | c :: rest =>
    if c = '-' then
      match rest with
      | [] => none
      | d :: _ =>
        if d.isDigit then some (-(digitsToNat (leadDigits rest) : Int)) else none
    else if c = '+' then
      match rest with
      | [] => none
      | d :: _ =>
        if d.isDigit then some ((digitsToNat (leadDigits rest) : Int)) else none
    else if c.isDigit then some ((digitsToNat (leadDigits (c :: rest)) : Int))
    else none

/-- The inner `toMinutes` arrow function of `timesOverlap`, on the character
list of the time string: falsy input (null/undefined/empty) yields `0`,
otherwise `parseInt(substring(0,2)) * 60 + parseInt(substring(2))`,
with `none` modelling a `NaN` result. -/
def toMinutesChars (cs : List Char) : Option Int :=
  if cs.isEmpty then some 0
  else
    match parseIntJS (cs.take 2), parseIntJS (cs.drop 2) with
    | some h, some m => some (h * 60 + m)
    | _, _ => none

/-- `toMinutes` on the (possibly null) time string. -/
def toMinutes (timeStr : Option String) : Option Int :=
  match timeStr with
  | none => some 0
  | some s => toMinutesChars s.data

/-- JS `<` on two possibly-NaN numbers: any comparison with `NaN` is false. -/
def jsLt : Option Int → Option Int → Bool
  | some a, some b => a < b
  | _, _ => false

/-- `timesOverlap(start1, end1, start2, end2)`:
`start1Min < end2Min && start2Min < end1Min` after conversion to minutes. -/
def timesOverlap (start1 end1 start2 end2 : Option String) : Bool :=
  jsLt (toMinutes start1) (toMinutes end2) && jsLt (toMinutes start2) (toMinutes end1)

/-- The day-overlap disjunction of `sectionsConflict`: the two meeting times
share at least one active weekday. -/
def dayOverlap (mt1 mt2 : MeetingTime) : Bool :=
  (mt1.monday && mt2.monday) ||
  (mt1.tuesday && mt2.tuesday) ||
  (mt1.wednesday && mt2.wednesday) ||
  (mt1.thursday && mt2.thursday) ||
  (mt1.friday && mt2.friday) ||
  (mt1.saturday && mt2.saturday) ||
  (mt1.sunday && mt2.sunday)

/-- `sectionsConflict(section1, section2)`: some meeting pair (skipping
entries without a `meetingTime`) shares a weekday and has overlapping times. -/
def sectionsConflict (section1 section2 : Section) : Bool :=
  section1.meetingsFaculty.any fun meeting1 =>
    match meeting1.meetingTime with
    | none => false
    | some mt1 =>
      section2.meetingsFaculty.any fun meeting2 =>
        match meeting2.meetingTime with
        | none => false
        | some mt2 =>
          dayOverlap mt1 mt2 &&
            timesOverlap mt1.beginTime mt1.endTime mt2.beginTime mt2.endTime

/-- `hasScheduleConflict(schedule)`: some pair at positions `i < j`
conflicts. -/
def hasScheduleConflict : List ScheduleItem → Bool
  | [] => false
  | x :: xs =>
    (xs.any fun y => sectionsConflict x.sect y.sect) || hasScheduleConflict xs

/-- The schedule-item object literal that every generator pushes for a chosen
section of a subject. -/
def mkItem (subj : Subject) (sec : Section) : ScheduleItem :=
  { subjectId := subj.id
    subject := subj.subject
    courseNumber := subj.courseNumber
    courseTitle := subj.courseTitle
    creditHourLow := subj.creditHourLow
    sect := sec }

/-- The recursive `combine` closure of `generateCombinations`: the full
cross-product of one section per subject, appended to `current`. -/
def combineAll : List ScheduleItem → List Subject → List (List ScheduleItem)
  | current, [] => [current]
  | current, subj :: rest =>
    subj.sections.flatMap fun sec => combineAll (current ++ [mkItem subj sec]) rest

/-- `generateCombinations(subjects)`: empty input yields `[]`, otherwise the
full cross-product. -/
def generateCombinations (subjects : List Subject) : List (List ScheduleItem) :=
  match subjects with
  | [] => []
  | _ => combineAll [] subjects

/-- The `alreadyHasThisSubject` test: the partial schedule already holds an
item with the same `subject` and `courseNumber` as the given subject. -/
def alreadyHasSubject (current : List ScheduleItem) (subj : Subject) : Bool :=
  current.any fun existingItem =>
    existingItem.subject == subj.subject && existingItem.courseNumber == subj.courseNumber

/-- The recursive `combineCompatible` closure of
`generateCompatibleCombinationsWithSpecificSections`: per section, skip it if
the subject is already present, accept it only if it conflicts with no item
already chosen, and only then recurse. -/
def combineCompatible : List ScheduleItem → List Subject → List (List ScheduleItem)
  | current, [] => [current]
  | current, subj :: rest =>
    subj.sections.flatMap fun sec =>
      if alreadyHasSubject current subj then []
      else if current.all (fun existingItem => !sectionsConflict existingItem.sect sec) then
        combineCompatible (current ++ [mkItem subj sec]) rest
      else []

/-- `generateCompatibleCombinationsWithSpecificSections(subjects)`. -/
def generateCompatibleCombinationsWithSpecificSections
    (subjects : List Subject) : List (List ScheduleItem) :=
  match subjects with
  | [] => []
  | _ => combineCompatible [] subjects

/-- `calculateTotalCombinations(subjects)`: product of section-list lengths. -/
def calculateTotalCombinations (subjects : List Subject) : Nat :=
  subjects.foldl (fun total subject => total * subject.sections.length) 1

/-- The per-subject body of `filterSubjects`: drop closed sections when
`onlyOpenSections`, then narrow to the selected campus only when that
narrowing is non-empty. -/
def filterOneSubject (onlyOpenSections : Bool) (selectedCampus : String)
    (subject : Subject) : Subject :=
  let sections :=
    if onlyOpenSections then subject.sections.filter (fun sec => sec.openSection)
    else subject.sections
  let sections :=
    if selectedCampus = "" then sections
    else
      let sectionsInCampus := sections.filter (fun sec => sec.campusDescription == selectedCampus)
      if sectionsInCampus.length > 0 then sectionsInCampus else sections
  { subject with sections := sections }

/-- `filterSubjects(subjects, onlyOpenSections, selectedCampus)`. -/
def filterSubjects (subjects : List Subject) (onlyOpenSections : Bool)
    (selectedCampus : String) : List Subject :=
  subjects.map (filterOneSubject onlyOpenSections selectedCampus)

/-- `formatTime(timeStr)`, composed with JS template-literal rendering:
a null value is rendered as the text `null`, a string of length other than
four is returned unchanged, otherwise `HH:MM`. -/
def formatTime (timeStr : Option String) : String :=
  match timeStr with
  | none => "null"
  | some s => if s.length ≠ 4 then s else s.take 2 ++ ":" ++ s.drop 2

/-- The Spanish day names shared by two meeting times, in the order pushed by
`getSpecificConflictInfo`. -/
def sharedDayNames (mt1 mt2 : MeetingTime) : List String :=
  (if mt1.monday && mt2.monday then ["lunes"] else []) ++
  (if mt1.tuesday && mt2.tuesday then ["martes"] else []) ++
  (if mt1.wednesday && mt2.wednesday then ["miércoles"] else []) ++
  (if mt1.thursday && mt2.thursday then ["jueves"] else []) ++
  (if mt1.friday && mt2.friday then ["viernes"] else []) ++
  (if mt1.saturday && mt2.saturday then ["sábado"] else []) ++
  (if mt1.sunday && mt2.sunday then ["domingo"] else [])

/-- `getSpecificConflictInfo(section1, section2)`: all day/time clash
descriptions of the two sections, joined with commas. -/
def getSpecificConflictInfo (section1 section2 : Section) : String :=
  String.intercalate ", " <|
    section1.meetingsFaculty.flatMap fun meeting1 =>
      match meeting1.meetingTime with
      | none => []
      | some mt1 =>
        section2.meetingsFaculty.filterMap fun meeting2 =>
          match meeting2.meetingTime with
          | none => none
          | some mt2 =>
            let sharedDays := sharedDayNames mt1 mt2
            if sharedDays.length > 0 &&
                timesOverlap mt1.beginTime mt1.endTime mt2.beginTime mt2.endTime then
              some ("conflicto " ++ String.intercalate ", " sharedDays ++ " (" ++
                formatTime mt1.beginTime ++ "-" ++ formatTime mt1.endTime ++ " vs " ++
                formatTime mt2.beginTime ++ "-" ++ formatTime mt2.endTime ++ ")")
            else none

/-- JS `section.courseReferenceNumber || section.id`. -/
def referenceOf (sec : Section) : String :=
  if sec.courseReferenceNumber = "" then sec.id else sec.courseReferenceNumber

/-- `getDetailedConflictInfo(subject1, subject2)`: one NRC-tagged line per
conflicting section pair with a non-empty description. -/
def getDetailedConflictInfo (subject1 subject2 : Subject) : List String :=
  subject1.sections.flatMap fun section1 =>
    subject2.sections.filterMap fun section2 =>
      if sectionsConflict section1 section2 then
        let conflictInfo := getSpecificConflictInfo section1 section2
        if conflictInfo ≠ "" then
          some ("NRC " ++ referenceOf section1 ++ " vs NRC " ++ referenceOf section2 ++
            ": " ++ conflictInfo)
        else none
      else none

/-- `hasCompatibleSections(subject1, subject2)`: some section pair does not
conflict. -/
def hasCompatibleSections (subject1 subject2 : Subject) : Bool :=
  subject1.sections.any fun section1 =>
    subject2.sections.any fun section2 => !sectionsConflict section1 section2

/-- One entry of `conflictPairs` in `analyzeScheduleConflicts`. -/
structure ConflictPair where
  subject1 : String
  subject2 : String
  title1 : String
  title2 : String
deriving DecidableEq

/-- Result record of `analyzeScheduleConflicts`. -/
structure ConflictAnalysis where
  suggestions : List String
  conflictPairs : List ConflictPair
  detailedConflicts : List (List String)
deriving DecidableEq

/-- The unordered pairs `(i, j)` with `i < j` visited by the double loop of
`analyzeScheduleConflicts`, in visit order. -/
def subjectPairs : List Subject → List (Subject × Subject)
  | [] => []
  | x :: xs => (xs.map fun y => (x, y)) ++ subjectPairs xs

/-- `analyzeScheduleConflicts(subjects)`: collect every priority pair with no
compatible sections, and build the suggestion message list. -/
def analyzeScheduleConflicts (subjects : List Subject) : ConflictAnalysis :=
  let badPairs := (subjectPairs subjects).filter fun p => !hasCompatibleSections p.1 p.2
  let conflictPairs : List ConflictPair := badPairs.map fun p =>
    { subject1 := p.1.subject ++ p.1.courseNumber
      subject2 := p.2.subject ++ p.2.courseNumber
      title1 := p.1.courseTitle
      title2 := p.2.courseTitle }
  let detailedConflicts := badPairs.map fun p => getDetailedConflictInfo p.1 p.2
  let suggestions :=
    if conflictPairs.length > 0 then
      "Se encontraron conflictos de horario entre las siguientes materias:" ::
      ((conflictPairs.zip detailedConflicts).flatMap fun pd =>
        ("• " ++ pd.1.subject1 ++ " (" ++ pd.1.title1 ++ ") y " ++
          pd.1.subject2 ++ " (" ++ pd.1.title2 ++ ")") ::
        pd.2.map (fun detail => "  - " ++ detail)) ++
      ["Sugerencias:",
       "- Revisa si hay otras secciones disponibles para estas materias",
       "- Considera cambiar algunas materias de \"Prioritaria\" a \"Candidata\"",
       "- Verifica los horarios en el sistema oficial de la universidad"]
    else []
  { suggestions := suggestions
    conflictPairs := conflictPairs
    detailedConflicts := detailedConflicts }

/-- The UTF-16 code units of a character: one unit inside the basic
multilingual plane, a surrogate pair above it. -/
def utf16Units (c : Char) : List Nat :=
  if c.toNat < 65536 then [c.toNat]
  else [55296 + (c.toNat - 65536) / 1024, 56320 + (c.toNat - 65536) % 1024]

/-- Lexicographic comparison of code-unit lists. -/
def unitListLe : List Nat → List Nat → Bool
  | [], _ => true
  | _ :: _, [] => false
  | a :: as, b :: bs =>
    if a < b then true
    else if b < a then false
    else unitListLe as bs

/-- String comparison by UTF-16 code units, the order JS `sort()` applies to
its string elements. -/
def strLe (a b : String) : Bool :=
  unitListLe (a.data.flatMap utf16Units) (b.data.flatMap utf16Units)

/-- Ascending insertion into a sorted string list (JS default `sort()` orders
strings by code-unit comparison). -/
def insertSorted (x : String) : List String → List String
  | [] => [x]
  | y :: ys => if strLe x y then x :: y :: ys else y :: insertSorted x ys

/-- Ascending string sort, as performed by JS `Array.prototype.sort()` on the
section-id array. -/
def sortStrings (l : List String) : List String :=
  l.foldr insertSorted []

/-- The canonical key of `removeDuplicateSchedules`: the schedule's section
ids, sorted and joined with `-`. -/
def scheduleKey (schedule : List ScheduleItem) : String :=
  String.intercalate "-" (sortStrings (schedule.map fun item => item.sect.id))

/-- The traversal of `removeDuplicateSchedules`, with the set of seen keys
made explicit. -/
def removeDupAux (seen : List String) : List (List ScheduleItem) → List (List ScheduleItem)
  | [] => []
  | schedule :: rest =>
    if scheduleKey schedule ∈ seen then removeDupAux seen rest
    else schedule :: removeDupAux (scheduleKey schedule :: seen) rest

/-- `removeDuplicateSchedules(schedules)`: keep the first schedule seen per
canonical key. -/
def removeDuplicateSchedules (schedules : List (List ScheduleItem)) : List (List ScheduleItem) :=
  removeDupAux [] schedules

/-- One pass of the candidate loop in `addCandidateSubjects`: extend every
schedule currently in the working list with every compatible section of the
candidate subject, and append the extensions after the originals. -/
def tryAddCandidate (candidateSubject : Subject)
    (enhancedSchedules : List (List ScheduleItem)) : List (List ScheduleItem) :=
  let newSchedules := enhancedSchedules.flatMap fun currentSchedule =>
    candidateSubject.sections.filterMap fun sec =>
      if currentSchedule.all (fun existingItem => !sectionsConflict existingItem.sect sec) then
        some (currentSchedule ++ [mkItem candidateSubject sec])
      else none
  enhancedSchedules ++ newSchedules

/-- `addCandidateSubjects(prioritySchedule, candidateSubjects)`: fold every
candidate subject into the working list, then deduplicate. -/
def addCandidateSubjects (prioritySchedule : List ScheduleItem)
    (candidateSubjects : List Subject) : List (List ScheduleItem) :=
  removeDuplicateSchedules
    (candidateSubjects.foldl (fun acc c => tryAddCandidate c acc) [prioritySchedule])

/-- The per-subject error message of the invalid-priority-subjects branch of
`generatePossibleSchedulesWithCandidates`. -/
def priorityErrorMessage (subj : Subject) (onlyOpenSections : Bool)
    (selectedCampus : String) : String :=
  let reason :=
    if selectedCampus ≠ "" then "en el campus \"" ++ selectedCampus ++ "\""
    else if onlyOpenSections then "abiertas" else "disponibles"
  "La materia prioritaria " ++ subj.subject ++ subj.courseNumber ++ " (" ++
    subj.courseTitle ++ ") no tiene secciones " ++ reason ++ "."

/-- The result object of `generatePossibleSchedulesWithCandidates`; count
fields absent from a given return object are `none`. -/
structure GenResult where
  schedules : List (List ScheduleItem)
  errors : List String
  totalCombinations : Option Nat := none
  validCombinations : Option Nat := none
  totalPrioritySchedules : Option Nat := none
  totalFinalSchedules : Option Nat := none
deriving DecidableEq

/-- `generatePossibleSchedulesWithCandidates(prioritySubjects,
candidateSubjects, onlyOpenSections, selectedCampus)`. -/
def generatePossibleSchedulesWithCandidates
    (prioritySubjects candidateSubjects : List Subject)
    (onlyOpenSections : Bool) (selectedCampus : String) : GenResult :=
  if prioritySubjects.length = 0 ∧ candidateSubjects.length = 0 then
    { schedules := []
      errors := ["Debes seleccionar al menos una materia para generar horarios."] }
  else
    let filteredPrioritySubjects := filterSubjects prioritySubjects onlyOpenSections selectedCampus
    let filteredCandidateSubjects := filterSubjects candidateSubjects onlyOpenSections selectedCampus
    let invalidPrioritySubjects := filteredPrioritySubjects.filter fun subject =>
      subject.sections.length == 0
    if invalidPrioritySubjects.length > 0 then
      { schedules := []
        errors := invalidPrioritySubjects.map fun subject =>
          priorityErrorMessage subject onlyOpenSections selectedCampus }
    else
      let prioritySchedules :=
        generateCompatibleCombinationsWithSpecificSections filteredPrioritySubjects
      if prioritySchedules.length = 0 then
        { schedules := []
          errors :=
            "No fue posible generar horarios sin conflictos con las materias prioritarias seleccionadas." ::
            (analyzeScheduleConflicts filteredPrioritySubjects).suggestions }
      else if filteredCandidateSubjects.length = 0 then
        { schedules := prioritySchedules
          errors := []
          totalCombinations := some (calculateTotalCombinations filteredPrioritySubjects)
          validCombinations := some prioritySchedules.length }
      else
        let finalSchedules := prioritySchedules.flatMap fun prioritySchedule =>
          addCandidateSubjects prioritySchedule filteredCandidateSubjects
        { schedules := finalSchedules
          errors := []
          totalPrioritySchedules := some prioritySchedules.length
          totalFinalSchedules := some finalSchedules.length }

/-- The subject+courseNumber key of a subject (the grouping key `courseKey`
of `groupCoursesBySubject`). -/
def subjKey (s : Subject) : String := s.subject ++ s.courseNumber

/-- The subject+courseNumber key carried by a schedule item. -/
def itemKey (it : ScheduleItem) : String := it.subject ++ it.courseNumber

/-- Well-formedness of a four-digit `HHMM` character list. -/
def isHHMMChars : List Char → Bool
  | [a, b, c, d] => a.isDigit && b.isDigit && c.isDigit && d.isDigit
  | _ => false

/-- Well-formedness of a four-digit `HHMM` time string. -/
def isHHMM (s : String) : Bool := isHHMMChars s.data

/-- Decimal value of a digit character. -/
def digitVal (c : Char) : Nat := c.toNat - 48

/-- Minute-of-day value of a four-digit `HHMM` character list. -/
def minutesOfDayChars : List Char → Nat
  | [a, b, c, d] => (digitVal a * 10 + digitVal b) * 60 + (digitVal c * 10 + digitVal d)
  | _ => 0

/-- Modelled from the spec: the minute-of-day integer obtained by converting
a well-formed `HHMM` string (`hours * 60 + minutes`). -/
def specMinutesOfDay (s : String) : Nat := minutesOfDayChars s.data

theorem isDigit_toNat_bounds (c : Char) (h : c.isDigit = true) :
    48 ≤ c.toNat ∧ c.toNat ≤ 57 := by
  simp [Char.isDigit] at h
  exact ⟨h.1, h.2⟩

theorem isDigit_not_ws_not_sign (c : Char) (h : c.isDigit = true) :
    jsWhitespace c = false ∧ c ≠ '-' ∧ c ≠ '+' := by
  obtain ⟨h1, h2⟩ := isDigit_toNat_bounds c h
  refine ⟨?_, ?_, ?_⟩
  · rw [jsWhitespace]
    apply decide_eq_false
    omega
  · intro e
    subst e
    exact absurd (isDigit_toNat_bounds _ h) (by decide)
  · intro e
    subst e
    exact absurd (isDigit_toNat_bounds _ h) (by decide)

theorem toMinutesChars_of_isHHMM (cs : List Char) (h : isHHMMChars cs = true) :
    toMinutesChars cs = some ((minutesOfDayChars cs : Int)) := by
  rcases cs with _ | ⟨a, _ | ⟨b, _ | ⟨c, _ | ⟨d, _ | ⟨e, tl⟩⟩⟩⟩⟩ <;>
    simp [isHHMMChars] at h
  obtain ⟨⟨⟨ha, hb⟩, hc⟩, hd⟩ := h
  obtain ⟨hwa, hda, hpa⟩ := isDigit_not_ws_not_sign a ha
  obtain ⟨hwc, hdc, hpc⟩ := isDigit_not_ws_not_sign c hc
  simp [toMinutesChars, parseIntJS, leadDigits, digitsToNat, minutesOfDayChars, digitVal,
    List.dropWhile_cons, ha, hb, hc, hd, hwa, hda, hpa, hwc, hdc, hpc]

theorem toMinutes_of_isHHMM (s : String) (h : isHHMM s = true) :
    toMinutes (some s) = some ((specMinutesOfDay s : Int)) :=
  toMinutesChars_of_isHHMM s.data h

/-- C4: for well-formed four-digit `HHMM` strings, `timesOverlap` is true
exactly when `start1 < end2` and `start2 < end1` in minutes of day; in
particular, half-open intervals that merely touch do not overlap. -/
theorem timesOverlap_halfopen_iff (s1 e1 s2 e2 : String)
    (h1 : isHHMM s1 = true) (h2 : isHHMM e1 = true)
    (h3 : isHHMM s2 = true) (h4 : isHHMM e2 = true) :
    (timesOverlap (some s1) (some e1) (some s2) (some e2) = true ↔
      specMinutesOfDay s1 < specMinutesOfDay e2 ∧
      specMinutesOfDay s2 < specMinutesOfDay e1) ∧
    (specMinutesOfDay e1 = specMinutesOfDay s2 →
      timesOverlap (some s1) (some e1) (some s2) (some e2) = false) := by
  have m1 := toMinutes_of_isHHMM s1 h1
  have m2 := toMinutes_of_isHHMM e1 h2
  have m3 := toMinutes_of_isHHMM s2 h3
  have m4 := toMinutes_of_isHHMM e2 h4
  constructor
  · simp [timesOverlap, m1, m2, m3, m4, jsLt]
  · intro he
    simp [timesOverlap, m1, m2, m3, m4, jsLt, he]

/-- Witness for `timesOverlap_halfopen_iff` at 07:00-08:30 vs 08:30-10:00. -/
theorem timesOverlap_halfopen_iff_witness :
    isHHMM "0700" = true ∧
    ((timesOverlap (some "0700") (some "0830") (some "0830") (some "1000") = true ↔
      specMinutesOfDay "0700" < specMinutesOfDay "1000" ∧
      specMinutesOfDay "0830" < specMinutesOfDay "0830") ∧
    (specMinutesOfDay "0830" = specMinutesOfDay "0830" →
      timesOverlap (some "0700") (some "0830") (some "0830") (some "1000") = false)) :=
  ⟨by decide,
   timesOverlap_halfopen_iff "0700" "0830" "0830" "1000"
     (by decide) (by decide) (by decide) (by decide)⟩

/-- The two meetings activate no weekday in common (vacuously true when either
lacks a `meetingTime`). -/
def noSharedDay (m1 m2 : Meeting) : Bool :=
  match m1.meetingTime, m2.meetingTime with
  | some mt1, some mt2 => !dayOverlap mt1 mt2
  | _, _ => true

/-- C8: sections whose meeting patterns share no active weekday never
conflict, whatever their times. -/
theorem no_shared_day_no_conflict (s1 s2 : Section)
    (h : ∀ m1 ∈ s1.meetingsFaculty, ∀ m2 ∈ s2.meetingsFaculty,
      noSharedDay m1 m2 = true) :
    sectionsConflict s1 s2 = false := by
  rw [sectionsConflict, List.any_eq_false]
  intro m1 hm1
  rcases hmt1 : m1.meetingTime with _ | mt1
  · simp [hmt1]
  · simp only [hmt1, Bool.not_eq_true, List.any_eq_false]
    intro m2 hm2
    rcases hmt2 : m2.meetingTime with _ | mt2
    · simp
    · have hd := h m1 hm1 m2 hm2
      rw [noSharedDay, hmt1, hmt2] at hd
      simp only [Bool.not_eq_true'] at hd
      simp [hd]

/-- Witness for `no_shared_day_no_conflict`: a Monday meeting against a
Tuesday meeting at identical times. -/
theorem no_shared_day_no_conflict_witness :
    (∀ m1 ∈ (Section.mk "A" true "" ""
        [⟨some ⟨true, false, false, false, false, false, false,
          some "0700", some "0830"⟩⟩]).meetingsFaculty,
      ∀ m2 ∈ (Section.mk "B" true "" ""
        [⟨some ⟨false, true, false, false, false, false, false,
          some "0700", some "0830"⟩⟩]).meetingsFaculty,
        noSharedDay m1 m2 = true) ∧
    sectionsConflict
      (Section.mk "A" true "" ""
        [⟨some ⟨true, false, false, false, false, false, false,
          some "0700", some "0830"⟩⟩])
      (Section.mk "B" true "" ""
        [⟨some ⟨false, true, false, false, false, false, false,
          some "0700", some "0830"⟩⟩]) = false :=
  ⟨by decide,
   no_shared_day_no_conflict _ _ (by decide)⟩

/-- A falsy JS time-string value: null/undefined or the empty string. -/
def emptyTimeStr : Option String → Bool
  | none => true
  | some s => s.data.isEmpty

/-- A meeting entry carrying no usable time data: its `meetingTime` is
null/undefined, or both its time strings are falsy. -/
def meetingDegenerate (m : Meeting) : Bool :=
  match m.meetingTime with
  | none => true
  | some mt => emptyTimeStr mt.beginTime && emptyTimeStr mt.endTime

theorem toMinutes_of_emptyTimeStr (t : Option String) (h : emptyTimeStr t = true) :
    toMinutes t = some 0 := by
  rcases t with _ | s
  · rfl
  · rw [emptyTimeStr] at h
    rw [toMinutes, toMinutesChars, if_pos h]

/-- The meeting's begin-time string does not parse to a negative minute
value: its `meetingTime` is null, or `toMinutes` of its `beginTime` is `NaN`
or non-negative.  Null, empty, and well-formed `HHMM` time strings all
satisfy this. -/
def nonNegBeginTime (m : Meeting) : Bool :=
  match m.meetingTime with
  | none => true
  | some mt =>
    match toMinutes mt.beginTime with
    | none => true
    | some n => 0 ≤ n

theorem jsLt_zero_of_nonNegBegin (mt : MeetingTime) (m : Meeting)
    (hm : m.meetingTime = some mt) (h : nonNegBeginTime m = true) :
    jsLt (toMinutes mt.beginTime) (some 0) = false := by
  rw [nonNegBeginTime, hm] at h
  dsimp only at h
  rcases hx : toMinutes mt.beginTime with _ | n
  · rfl
  · rw [hx] at h
    simp at h
    simp only [jsLt, decide_eq_false_iff_not]
    omega

/-- C9 counterexample: a section whose single Monday meeting carries empty
time strings is degenerate, yet it conflicts with a Monday section whose
begin-time string parses negatively: JS `parseInt` reads the sign, so the
minutes of `-100` are `-60` and both half-open comparisons `0 < 480` and
`-60 < 0` hold.  A degenerate section does not avoid conflict with every
section. -/
theorem degenerate_conflicts_negative_parse_counterexample :
    (∀ m ∈ (Section.mk "D" true "" ""
        [⟨some ⟨true, false, false, false, false, false, false,
          some "", some ""⟩⟩]).meetingsFaculty,
      meetingDegenerate m = true) ∧
    toMinutes (some "-100") = some (-60) ∧
    sectionsConflict
      (Section.mk "D" true "" ""
        [⟨some ⟨true, false, false, false, false, false, false,
          some "", some ""⟩⟩])
      (Section.mk "T" true "" ""
        [⟨some ⟨true, false, false, false, false, false, false,
          some "-100", some "0800"⟩⟩]) = true := by
  refine ⟨?_, ?_, ?_⟩ <;> decide

/-- C9 (amended): malformed meeting data is schedulable, never erroneous: a
meeting without a `meetingTime` is skipped, falsy time strings convert to
minute 0, and a section all of whose meetings are degenerate in either way
conflicts, in either argument position, with no section whose begin-time
strings avoid parsing to a negative value — in particular with no section
holding only null, empty, or well-formed `HHMM` time strings. -/
theorem degenerate_meetings_never_conflict (s : Section)
    (h : ∀ m ∈ s.meetingsFaculty, meetingDegenerate m = true) :
    (∀ t : Section, (∀ m ∈ t.meetingsFaculty, nonNegBeginTime m = true) →
      sectionsConflict s t = false ∧ sectionsConflict t s = false) ∧
    toMinutes none = some 0 ∧ toMinutes (some "") = some 0 := by
  refine ⟨fun t ht => ⟨?_, ?_⟩, rfl, rfl⟩
  · rw [sectionsConflict, List.any_eq_false]
    intro m1 hm1
    have hd := h m1 hm1
    rw [meetingDegenerate] at hd
    rcases hmt1 : m1.meetingTime with _ | mt1
    · simp
    · rw [hmt1, Bool.and_eq_true] at hd
      simp only [Bool.not_eq_true, List.any_eq_false]
      intro m2 hm2
      rcases hmt2 : m2.meetingTime with _ | mt2
      · simp
      · have he : toMinutes mt1.endTime = some 0 := toMinutes_of_emptyTimeStr _ hd.2
        have hb2 := jsLt_zero_of_nonNegBegin mt2 m2 hmt2 (ht m2 hm2)
        simp [timesOverlap, he, hb2]
  · rw [sectionsConflict, List.any_eq_false]
    intro m1 hm1
    rcases hmt1 : m1.meetingTime with _ | mt1
    · simp
    · simp only [Bool.not_eq_true, List.any_eq_false]
      intro m2 hm2
      have hd := h m2 hm2
      rw [meetingDegenerate] at hd
      rcases hmt2 : m2.meetingTime with _ | mt2
      · simp
      · rw [hmt2, Bool.and_eq_true] at hd
        have he : toMinutes mt2.endTime = some 0 := toMinutes_of_emptyTimeStr _ hd.2
        have hb1 := jsLt_zero_of_nonNegBegin mt1 m1 hmt1 (ht m1 hm1)
        simp [timesOverlap, he, hb1]

/-- Witness for `degenerate_meetings_never_conflict`: a section whose two
meetings have a null `meetingTime` and empty time strings respectively never
conflicts with a full Monday section carrying well-formed times. -/
theorem degenerate_meetings_never_conflict_witness :
    (∀ m ∈ (Section.mk "D" true "" ""
        [⟨none⟩,
         ⟨some ⟨true, true, true, true, true, true, true, none, some ""⟩⟩]).meetingsFaculty,
      meetingDegenerate m = true) ∧
    (∀ m ∈ (Section.mk "F" true "" ""
        [⟨some ⟨true, false, false, false, false, false, false,
          some "0000", some "2359"⟩⟩]).meetingsFaculty,
      nonNegBeginTime m = true) ∧
    (sectionsConflict
        (Section.mk "D" true "" ""
          [⟨none⟩,
           ⟨some ⟨true, true, true, true, true, true, true, none, some ""⟩⟩])
        (Section.mk "F" true "" ""
          [⟨some ⟨true, false, false, false, false, false, false,
            some "0000", some "2359"⟩⟩]) = false ∧
      sectionsConflict
        (Section.mk "F" true "" ""
          [⟨some ⟨true, false, false, false, false, false, false,
            some "0000", some "2359"⟩⟩])
        (Section.mk "D" true "" ""
          [⟨none⟩,
           ⟨some ⟨true, true, true, true, true, true, true, none, some ""⟩⟩]) = false) :=
  ⟨by decide, by decide,
   (degenerate_meetings_never_conflict _ (by decide)).1
     (Section.mk "F" true "" ""
       [⟨some ⟨true, false, false, false, false, false, false,
         some "0000", some "2359"⟩⟩])
     (by decide)⟩

/-- C6: with a non-empty campus, `filterSubjects` first drops closed sections
when `onlyOpenSections` is set; then, if some surviving section matches the
campus, exactly the matching ones are kept, and if none matches, the list is
left unchanged rather than emptied. -/
theorem filterSubjects_campus_fallback (subject : Subject) (onlyOpen : Bool) (campus : String)
    (h : campus ≠ "") :
    (∀ sec ∈ (filterOneSubject onlyOpen campus subject).sections,
        onlyOpen = true → sec.openSection = true) ∧
    ((∃ sec ∈ (if onlyOpen then subject.sections.filter (fun s => s.openSection)
          else subject.sections), sec.campusDescription = campus) →
      (filterOneSubject onlyOpen campus subject).sections
        = (if onlyOpen then subject.sections.filter (fun s => s.openSection)
            else subject.sections).filter (fun s => s.campusDescription == campus)) ∧
    ((∀ sec ∈ (if onlyOpen then subject.sections.filter (fun s => s.openSection)
          else subject.sections), sec.campusDescription ≠ campus) →
      (filterOneSubject onlyOpen campus subject).sections
        = (if onlyOpen then subject.sections.filter (fun s => s.openSection)
            else subject.sections)) := by
  have hres : (filterOneSubject onlyOpen campus subject).sections =
      (if ((if onlyOpen then subject.sections.filter (fun s => s.openSection)
              else subject.sections).filter (fun s => s.campusDescription == campus)).length > 0
        then (if onlyOpen then subject.sections.filter (fun s => s.openSection)
              else subject.sections).filter (fun s => s.campusDescription == campus)
        else (if onlyOpen then subject.sections.filter (fun s => s.openSection)
              else subject.sections)) := by
    rw [filterOneSubject]
    simp only [if_neg h]
  refine ⟨?_, ?_, ?_⟩
  · intro sec hsec honly
    subst honly
    rw [hres] at hsec
    simp only [if_true] at hsec
    split at hsec
    · exact (List.mem_filter.mp (List.mem_of_mem_filter hsec)).2
    · exact (List.mem_filter.mp hsec).2
  · rintro ⟨sec, hsec, hcamp⟩
    have hmem : sec ∈ (if onlyOpen then subject.sections.filter (fun s => s.openSection)
        else subject.sections).filter (fun s => s.campusDescription == campus) :=
      List.mem_filter.mpr ⟨hsec, by simp [hcamp]⟩
    rw [hres, if_pos (List.length_pos.mpr (List.ne_nil_of_mem hmem))]
  · intro hall
    rw [hres, if_neg]
    intro hlen
    obtain ⟨sec, hsec⟩ := List.exists_mem_of_length_pos hlen
    have := List.mem_filter.mp hsec
    exact hall sec this.1 (by simpa using this.2)

/-- Witness for `filterSubjects_campus_fallback`: an open section at campus
Y survives the open filter, no survivor matches campus X, so the list is kept
unchanged. -/
theorem filterSubjects_campus_fallback_witness :
    (("X" : String) ≠ "") ∧
    ((∀ sec ∈ (filterOneSubject true "X"
          (Subject.mk "M1" "MAT" "101" "Calculo" 4
            [Section.mk "A" false "X" "" [], Section.mk "B" true "Y" "" []])).sections,
        true = true → sec.openSection = true) ∧
    ((∃ sec ∈ (if true then (Subject.mk "M1" "MAT" "101" "Calculo" 4
          [Section.mk "A" false "X" "" [], Section.mk "B" true "Y" "" []]).sections.filter
            (fun s => s.openSection)
          else (Subject.mk "M1" "MAT" "101" "Calculo" 4
            [Section.mk "A" false "X" "" [], Section.mk "B" true "Y" "" []]).sections),
        sec.campusDescription = "X") →
      (filterOneSubject true "X"
          (Subject.mk "M1" "MAT" "101" "Calculo" 4
            [Section.mk "A" false "X" "" [], Section.mk "B" true "Y" "" []])).sections
        = (if true then (Subject.mk "M1" "MAT" "101" "Calculo" 4
            [Section.mk "A" false "X" "" [], Section.mk "B" true "Y" "" []]).sections.filter
              (fun s => s.openSection)
            else (Subject.mk "M1" "MAT" "101" "Calculo" 4
              [Section.mk "A" false "X" "" [], Section.mk "B" true "Y" "" []]).sections).filter
            (fun s => s.campusDescription == "X")) ∧
    ((∀ sec ∈ (if true then (Subject.mk "M1" "MAT" "101" "Calculo" 4
          [Section.mk "A" false "X" "" [], Section.mk "B" true "Y" "" []]).sections.filter
            (fun s => s.openSection)
          else (Subject.mk "M1" "MAT" "101" "Calculo" 4
            [Section.mk "A" false "X" "" [], Section.mk "B" true "Y" "" []]).sections),
        sec.campusDescription ≠ "X") →
      (filterOneSubject true "X"
          (Subject.mk "M1" "MAT" "101" "Calculo" 4
            [Section.mk "A" false "X" "" [], Section.mk "B" true "Y" "" []])).sections
        = (if true then (Subject.mk "M1" "MAT" "101" "Calculo" 4
            [Section.mk "A" false "X" "" [], Section.mk "B" true "Y" "" []]).sections.filter
              (fun s => s.openSection)
            else (Subject.mk "M1" "MAT" "101" "Calculo" 4
              [Section.mk "A" false "X" "" [], Section.mk "B" true "Y" "" []]).sections))) :=
  ⟨by decide,
   filterSubjects_campus_fallback
     (Subject.mk "M1" "MAT" "101" "Calculo" 4
       [Section.mk "A" false "X" "" [], Section.mk "B" true "Y" "" []]) true "X"
     (by decide)⟩

/-- C10: with an empty priority list and a non-empty candidate list, the
search over no subjects yields no assignments at all (not the empty
assignment), so generation returns no schedules and exactly the
no-feasible-schedule error message; no candidate-only schedule is produced. -/
theorem empty_priority_error (cand : List Subject) (onlyOpen : Bool) (campus : String)
    (h : cand ≠ []) :
    (generatePossibleSchedulesWithCandidates [] cand onlyOpen campus).schedules = [] ∧
    (generatePossibleSchedulesWithCandidates [] cand onlyOpen campus).errors =
      ["No fue posible generar horarios sin conflictos con las materias prioritarias seleccionadas."] ∧
    generateCompatibleCombinationsWithSpecificSections [] = [] := by
  have hlen : ¬(([] : List Subject).length = 0 ∧ cand.length = 0) := by
    rintro ⟨-, h2⟩
    exact h (List.length_eq_zero.mp h2)
  rw [generatePossibleSchedulesWithCandidates, if_neg hlen]
  refine ⟨rfl, rfl, rfl⟩

/-- Witness for `empty_priority_error` with one candidate subject. -/
theorem empty_priority_error_witness :
    ([Subject.mk "M1" "MAT" "101" "Calculo" 4 [Section.mk "A" true "" "" []]] ≠
      ([] : List Subject)) ∧
    ((generatePossibleSchedulesWithCandidates []
        [Subject.mk "M1" "MAT" "101" "Calculo" 4 [Section.mk "A" true "" "" []]]
        true "").schedules = [] ∧
    (generatePossibleSchedulesWithCandidates []
        [Subject.mk "M1" "MAT" "101" "Calculo" 4 [Section.mk "A" true "" "" []]]
        true "").errors =
      ["No fue posible generar horarios sin conflictos con las materias prioritarias seleccionadas."] ∧
    generateCompatibleCombinationsWithSpecificSections [] = []) :=
  ⟨by decide,
   empty_priority_error
     [Subject.mk "M1" "MAT" "101" "Calculo" 4 [Section.mk "A" true "" "" []]]
     true "" (by decide)⟩

theorem foldl_tryAdd_cons (cands : List Subject) (base : List ScheduleItem) :
    ∀ rest : List (List ScheduleItem),
      ∃ t, cands.foldl (fun acc c => tryAddCandidate c acc) (base :: rest) = base :: t := by
  induction cands with
  | nil => exact fun rest => ⟨rest, rfl⟩
  | cons c cs ih =>
    intro rest
    rw [List.foldl_cons]
    have hstep : tryAddCandidate c (base :: rest) =
        base :: (rest ++ ((base :: rest).flatMap fun currentSchedule =>
          c.sections.filterMap fun sec =>
            if currentSchedule.all (fun existingItem => !sectionsConflict existingItem.sect sec)
            then some (currentSchedule ++ [mkItem c sec]) else none)) := by
      rw [tryAddCandidate, List.cons_append]
    rw [hstep]
    exact ih _

/-- C7: the unmodified base priority assignment always survives candidate
augmentation as the first returned schedule; and in the concrete scenario of
one priority section P with one candidate subject offering a conflicting
section X and a compatible section Y, the output is exactly the two
schedules P and P-plus-Y. -/
theorem addCandidateSubjects_keeps_base :
    (∀ (base : List ScheduleItem) (cands : List Subject),
      (addCandidateSubjects base cands).head? = some base) ∧
    addCandidateSubjects
      [mkItem (Subject.mk "MAT1" "MAT" "1" "TP" 3
          [Section.mk "P" true "" ""
            [⟨some ⟨true, false, false, false, false, false, false,
              some "0700", some "0830"⟩⟩]])
        (Section.mk "P" true "" ""
          [⟨some ⟨true, false, false, false, false, false, false,
            some "0700", some "0830"⟩⟩])]
      [Subject.mk "FIS2" "FIS" "2" "TC" 3
        [Section.mk "X" true "" ""
          [⟨some ⟨true, false, false, false, false, false, false,
            some "0800", some "0930"⟩⟩],
         Section.mk "Y" true "" ""
          [⟨some ⟨true, false, false, false, false, false, false,
            some "0900", some "1000"⟩⟩]]] =
      [[mkItem (Subject.mk "MAT1" "MAT" "1" "TP" 3
          [Section.mk "P" true "" ""
            [⟨some ⟨true, false, false, false, false, false, false,
              some "0700", some "0830"⟩⟩]])
        (Section.mk "P" true "" ""
          [⟨some ⟨true, false, false, false, false, false, false,
            some "0700", some "0830"⟩⟩])],
       [mkItem (Subject.mk "MAT1" "MAT" "1" "TP" 3
          [Section.mk "P" true "" ""
            [⟨some ⟨true, false, false, false, false, false, false,
              some "0700", some "0830"⟩⟩]])
        (Section.mk "P" true "" ""
          [⟨some ⟨true, false, false, false, false, false, false,
            some "0700", some "0830"⟩⟩]),
        mkItem (Subject.mk "FIS2" "FIS" "2" "TC" 3
          [Section.mk "X" true "" ""
            [⟨some ⟨true, false, false, false, false, false, false,
              some "0800", some "0930"⟩⟩],
           Section.mk "Y" true "" ""
            [⟨some ⟨true, false, false, false, false, false, false,
              some "0900", some "1000"⟩⟩]])
          (Section.mk "Y" true "" ""
            [⟨some ⟨true, false, false, false, false, false, false,
              some "0900", some "1000"⟩⟩])]] := by
  constructor
  · intro base cands
    rw [addCandidateSubjects]
    obtain ⟨t, ht⟩ := foldl_tryAdd_cons cands base []
    rw [ht, removeDuplicateSchedules, removeDupAux, if_neg (List.not_mem_nil _)]
    rfl
  · decide

/-- C5 counterexample: the only closed section of subject MAT101 sits at
campus X, so with `onlyOpenSections = true` and campus X the open-sections
filter is what empties the subject's list (the campus filter never empties a
list); yet the reported error message states the campus reason, not the
no-open-sections reason that the same input produces when no campus is
selected. -/
theorem priority_error_reason_counterexample :
    (generatePossibleSchedulesWithCandidates
        [Subject.mk "MAT101" "MAT" "101" "Calculo" 4
          [Section.mk "Z" false "X" "" []]] [] true "X").errors =
      ["La materia prioritaria MAT101 (Calculo) no tiene secciones en el campus \"X\"."] ∧
    (generatePossibleSchedulesWithCandidates
        [Subject.mk "MAT101" "MAT" "101" "Calculo" 4
          [Section.mk "Z" false "X" "" []]] [] true "X").schedules = [] ∧
    (Subject.mk "MAT101" "MAT" "101" "Calculo" 4
        [Section.mk "Z" false "X" "" []]).sections.filter (fun sec => sec.openSection) = [] ∧
    (generatePossibleSchedulesWithCandidates
        [Subject.mk "MAT101" "MAT" "101" "Calculo" 4
          [Section.mk "Z" false "X" "" []]] [] true "").errors =
      ["La materia prioritaria MAT101 (Calculo) no tiene secciones abiertas."] := by
  refine ⟨?_, ?_, ?_, ?_⟩ <;> decide

/-- C5 (amended): if after filtering some priority subject has zero sections,
generation aborts before any search with no schedules and one error message
per such subject naming it; the stated reason is chosen from the filter
options (campus when a campus was requested, otherwise open/available), not
from the filter step that actually emptied the list. -/
theorem invalid_priority_abort (prio cand : List Subject) (onlyOpen : Bool) (campus : String)
    (h : ∃ s ∈ filterSubjects prio onlyOpen campus, s.sections = []) :
    (generatePossibleSchedulesWithCandidates prio cand onlyOpen campus).schedules = [] ∧
    (generatePossibleSchedulesWithCandidates prio cand onlyOpen campus).errors =
      ((filterSubjects prio onlyOpen campus).filter fun subject =>
          subject.sections.length == 0).map
        (fun subject => priorityErrorMessage subject onlyOpen campus) ∧
    ∀ s ∈ filterSubjects prio onlyOpen campus, s.sections = [] →
      priorityErrorMessage s onlyOpen campus ∈
        (generatePossibleSchedulesWithCandidates prio cand onlyOpen campus).errors := by
  obtain ⟨s0, hs0, hemp⟩ := h
  have hprio : prio ≠ [] := by
    intro e
    subst e
    simp [filterSubjects] at hs0
  have hcond : ¬(prio.length = 0 ∧ cand.length = 0) := by
    rintro ⟨h1, -⟩
    exact hprio (List.length_eq_zero.mp h1)
  have hmem : s0 ∈ (filterSubjects prio onlyOpen campus).filter fun subject =>
      subject.sections.length == 0 :=
    List.mem_filter.mpr ⟨hs0, by simp [hemp]⟩
  have hpos : ((filterSubjects prio onlyOpen campus).filter fun subject =>
      subject.sections.length == 0).length > 0 :=
    List.length_pos.mpr (List.ne_nil_of_mem hmem)
  rw [generatePossibleSchedulesWithCandidates, if_neg hcond]
  dsimp only
  rw [if_pos hpos]
  refine ⟨rfl, rfl, ?_⟩
  intro s hs hse
  exact List.mem_map_of_mem _ (List.mem_filter.mpr ⟨hs, by simp [hse]⟩)

/-- Witness for `invalid_priority_abort`: one priority subject whose only
section is closed, generation aborts with its error message. -/
theorem invalid_priority_abort_witness :
    (∃ s ∈ filterSubjects
        [Subject.mk "FIS201" "FIS" "201" "Fisica" 4 [Section.mk "W" false "" "" []]] true "",
      s.sections = []) ∧
    ((generatePossibleSchedulesWithCandidates
        [Subject.mk "FIS201" "FIS" "201" "Fisica" 4 [Section.mk "W" false "" "" []]]
        [] true "").schedules = [] ∧
    (generatePossibleSchedulesWithCandidates
        [Subject.mk "FIS201" "FIS" "201" "Fisica" 4 [Section.mk "W" false "" "" []]]
        [] true "").errors =
      ((filterSubjects
          [Subject.mk "FIS201" "FIS" "201" "Fisica" 4 [Section.mk "W" false "" "" []]]
          true "").filter fun subject => subject.sections.length == 0).map
        (fun subject => priorityErrorMessage subject true "") ∧
    ∀ s ∈ filterSubjects
        [Subject.mk "FIS201" "FIS" "201" "Fisica" 4 [Section.mk "W" false "" "" []]] true "",
      s.sections = [] →
        priorityErrorMessage s true "" ∈
          (generatePossibleSchedulesWithCandidates
            [Subject.mk "FIS201" "FIS" "201" "Fisica" 4 [Section.mk "W" false "" "" []]]
            [] true "").errors) :=
  ⟨by decide,
   invalid_priority_abort
     [Subject.mk "FIS201" "FIS" "201" "Fisica" 4 [Section.mk "W" false "" "" []]]
     [] true "" (by decide)⟩

/-- Two schedule items whose sections do not conflict, in this order. -/
def noConf (a b : ScheduleItem) : Prop := sectionsConflict a.sect b.sect = false

theorem hasScheduleConflict_eq_false_iff (l : List ScheduleItem) :
    hasScheduleConflict l = false ↔ l.Pairwise noConf := by
  induction l with
  | nil => simp [hasScheduleConflict]
  | cons x xs ih =>
    rw [hasScheduleConflict, Bool.or_eq_false_iff, List.any_eq_false, List.pairwise_cons, ih]
    simp [noConf]

theorem combineAll_mem_append (rest : List Subject) :
    ∀ current s : List ScheduleItem, s ∈ combineAll current rest → ∃ t, s = current ++ t := by
  induction rest with
  | nil =>
    intro current s hs
    simp only [combineAll, List.mem_singleton] at hs
    exact ⟨[], by simp [hs]⟩
  | cons subj rest ih =>
    intro current s hs
    simp only [combineAll, List.mem_flatMap] at hs
    obtain ⟨sec, hsec, hmem⟩ := hs
    obtain ⟨t, ht⟩ := ih _ _ hmem
    exact ⟨[mkItem subj sec] ++ t, by rw [ht, List.append_assoc]⟩

theorem alreadyHasSubject_eq_false (current : List ScheduleItem) (subj : Subject)
    (h : subjKey subj ∉ current.map itemKey) :
    alreadyHasSubject current subj = false := by
  rw [alreadyHasSubject, List.any_eq_false]
  intro it hit
  simp only [Bool.and_eq_true, beq_iff_eq]
  rintro ⟨h1, h2⟩
  apply h
  have hkey : itemKey it = subjKey subj := by rw [itemKey, subjKey, h1, h2]
  exact hkey ▸ List.mem_map_of_mem itemKey hit

theorem combineCompatible_eq_filter (rest : List Subject) :
    ∀ current : List ScheduleItem, current.Pairwise noConf →
      (current.map itemKey ++ rest.map subjKey).Nodup →
      combineCompatible current rest
        = (combineAll current rest).filter (fun s => !hasScheduleConflict s) := by
  induction rest with
  | nil =>
    intro current hc _
    have hfalse : hasScheduleConflict current = false :=
      (hasScheduleConflict_eq_false_iff current).mpr hc
    simp [combineCompatible, combineAll, List.filter, hfalse]
  | cons subj rest ih =>
    intro current hc hk
    have hsubjnotin : subjKey subj ∉ current.map itemKey := by
      rw [List.map_cons, List.nodup_append] at hk
      intro hmem
      exact hk.2.2 hmem (List.mem_cons_self _ _)
    have hnoalready : alreadyHasSubject current subj = false :=
      alreadyHasSubject_eq_false current subj hsubjnotin
    simp only [combineCompatible, combineAll]
    rw [List.filter_flatMap]
    refine congrArg (List.flatMap subj.sections) (funext fun sec => ?_)
    rw [hnoalready]
    simp only [Bool.false_eq_true, if_false]
    have hik : itemKey (mkItem subj sec) = subjKey subj := rfl
    by_cases hcomp : current.all (fun existingItem => !sectionsConflict existingItem.sect sec) = true
    · rw [if_pos hcomp]
      apply ih
      · rw [List.pairwise_append]
        refine ⟨hc, List.pairwise_singleton _ _, ?_⟩
        intro a ha b hb
        rw [List.mem_singleton] at hb
        subst hb
        have := List.all_eq_true.mp hcomp a ha
        rw [Bool.not_eq_true'] at this
        exact this
      · simpa [hik] using hk
    · rw [if_neg hcomp]
      symm
      rw [List.filter_eq_nil_iff]
      intro s hs
      obtain ⟨t, rfl⟩ := combineAll_mem_append rest _ s hs
      simp only [Bool.not_eq_true, Bool.not_eq_false']
      by_contra hnc
      rw [Bool.not_eq_true] at hnc
      have hpw := (hasScheduleConflict_eq_false_iff _).mp hnc
      have hpw2 : (current ++ [mkItem subj sec]).Pairwise noConf :=
        List.Pairwise.sublist (List.sublist_append_left _ _) hpw
      rw [List.pairwise_append] at hpw2
      apply hcomp
      rw [List.all_eq_true]
      intro a ha
      have := hpw2.2.2 a ha (mkItem subj sec) (List.mem_singleton_self _)
      rw [Bool.not_eq_true']
      exact this

/-- C2: when the subject+courseNumber keys are pairwise distinct, the pruned
backtracking search returns exactly the same list of assignments, in the same
order, as materializing the full cross-product and then removing every
combination with a schedule conflict. -/
theorem pruned_search_eq_cross_product_filter (subjects : List Subject)
    (h : (subjects.map subjKey).Nodup) :
    generateCompatibleCombinationsWithSpecificSections subjects
      = (generateCombinations subjects).filter (fun s => !hasScheduleConflict s) := by
  cases subjects with
  | nil => rfl
  | cons a l =>
    show combineCompatible [] (a :: l)
      = (combineAll [] (a :: l)).filter (fun s => !hasScheduleConflict s)
    exact combineCompatible_eq_filter (a :: l) [] List.Pairwise.nil (by simpa using h)

/-- Witness for `pruned_search_eq_cross_product_filter` on the two-subject
scenario with one conflicting section pair. -/
theorem pruned_search_eq_cross_product_filter_witness :
    (([Subject.mk "MATH101" "MATH" "101" "TM" 4
        [Section.mk "A" true "" ""
          [⟨some ⟨true, false, false, false, false, false, false,
            some "0700", some "0830"⟩⟩],
         Section.mk "B" true "" ""
          [⟨some ⟨false, true, false, false, false, false, false,
            some "0700", some "0830"⟩⟩]],
       Subject.mk "PHYS101" "PHYS" "101" "TF" 4
        [Section.mk "C" true "" ""
          [⟨some ⟨true, false, false, false, false, false, false,
            some "0700", some "0830"⟩⟩]]].map subjKey).Nodup) ∧
    generateCompatibleCombinationsWithSpecificSections
      [Subject.mk "MATH101" "MATH" "101" "TM" 4
        [Section.mk "A" true "" ""
          [⟨some ⟨true, false, false, false, false, false, false,
            some "0700", some "0830"⟩⟩],
         Section.mk "B" true "" ""
          [⟨some ⟨false, true, false, false, false, false, false,
            some "0700", some "0830"⟩⟩]],
       Subject.mk "PHYS101" "PHYS" "101" "TF" 4
        [Section.mk "C" true "" ""
          [⟨some ⟨true, false, false, false, false, false, false,
            some "0700", some "0830"⟩⟩]]]
      = (generateCombinations
          [Subject.mk "MATH101" "MATH" "101" "TM" 4
            [Section.mk "A" true "" ""
              [⟨some ⟨true, false, false, false, false, false, false,
                some "0700", some "0830"⟩⟩],
             Section.mk "B" true "" ""
              [⟨some ⟨false, true, false, false, false, false, false,
                some "0700", some "0830"⟩⟩]],
           Subject.mk "PHYS101" "PHYS" "101" "TF" 4
            [Section.mk "C" true "" ""
              [⟨some ⟨true, false, false, false, false, false, false,
                some "0700", some "0830"⟩⟩]]]).filter (fun s => !hasScheduleConflict s) :=
  ⟨by decide,
   pruned_search_eq_cross_product_filter _ (by decide)⟩

theorem combineCompatible_mem (rest : List Subject) :
    ∀ current s : List ScheduleItem, current.Pairwise noConf →
      s ∈ combineCompatible current rest →
      s.map itemKey = current.map itemKey ++ rest.map subjKey ∧ s.Pairwise noConf := by
  induction rest with
  | nil =>
    intro current s hc hs
    simp only [combineCompatible, List.mem_singleton] at hs
    subst hs
    simp [hc]
  | cons subj rest ih =>
    intro current s hc hs
    simp only [combineCompatible, List.mem_flatMap] at hs
    obtain ⟨sec, hsec, hmem⟩ := hs
    split at hmem
    · exact absurd hmem (List.not_mem_nil s)
    · split at hmem
      · next hcomp =>
        have hpair : (current ++ [mkItem subj sec]).Pairwise noConf := by
          rw [List.pairwise_append]
          refine ⟨hc, List.pairwise_singleton _ _, ?_⟩
          intro a ha b hb
          rw [List.mem_singleton] at hb
          subst hb
          have := List.all_eq_true.mp hcomp a ha
          rwa [Bool.not_eq_true'] at this
        obtain ⟨hkeys, hcf⟩ := ih _ s hpair hmem
        constructor
        · rw [hkeys]
          simp [itemKey, subjKey, mkItem]
        · exact hcf
      · exact absurd hmem (List.not_mem_nil s)

theorem generateCompatible_mem (subjects : List Subject) (s : List ScheduleItem)
    (hs : s ∈ generateCompatibleCombinationsWithSpecificSections subjects) :
    s.map itemKey = subjects.map subjKey ∧ s.Pairwise noConf := by
  cases subjects with
  | nil => exact absurd hs (List.not_mem_nil s)
  | cons a l =>
    have := combineCompatible_mem (a :: l) [] s List.Pairwise.nil hs
    simpa using this

theorem tryAddCandidate_mem (c : Subject) (acc : List (List ScheduleItem))
    (s : List ScheduleItem) (h : s ∈ tryAddCandidate c acc) :
    s ∈ acc ∨ ∃ s₀ ∈ acc, ∃ sec ∈ c.sections,
      s = s₀ ++ [mkItem c sec] ∧ ∀ a ∈ s₀, sectionsConflict a.sect sec = false := by
  rw [tryAddCandidate] at h
  rw [List.mem_append] at h
  rcases h with h | h
  · exact Or.inl h
  · right
    rw [List.mem_flatMap] at h
    obtain ⟨s₀, hs₀, hmem⟩ := h
    rw [List.mem_filterMap] at hmem
    obtain ⟨sec, hsec, heq⟩ := hmem
    refine ⟨s₀, hs₀, sec, hsec, ?_⟩
    split at heq
    · next hcomp =>
      cases heq
      refine ⟨rfl, ?_⟩
      intro a ha
      have := List.all_eq_true.mp hcomp a ha
      rwa [Bool.not_eq_true'] at this
    · cases heq

theorem foldl_tryAdd_mem (cs : List Subject) :
    ∀ (acc : List (List ScheduleItem)) (s : List ScheduleItem),
      s ∈ cs.foldl (fun a c => tryAddCandidate c a) acc →
      ∃ s₀ ∈ acc, ∃ t : List ScheduleItem, s = s₀ ++ t ∧
        (t.map itemKey).Sublist (cs.map subjKey) ∧
        (s₀.Pairwise noConf → s.Pairwise noConf) := by
  induction cs with
  | nil =>
    intro acc s hs
    exact ⟨s, hs, [], by simp, by simp, fun h => h⟩
  | cons c cs ih =>
    intro acc s hs
    rw [List.foldl_cons] at hs
    obtain ⟨s₁, hs₁, t₁, rfl, hsub₁, hcf₁⟩ := ih _ _ hs
    rcases tryAddCandidate_mem c acc s₁ hs₁ with h | ⟨s₀, hs₀, sec, hsec, rfl, hall⟩
    · refine ⟨s₁, h, t₁, rfl, ?_, hcf₁⟩
      rw [List.map_cons]
      exact List.Sublist.cons _ hsub₁
    · refine ⟨s₀, hs₀, [mkItem c sec] ++ t₁, by rw [List.append_assoc], ?_, ?_⟩
      · rw [List.map_cons, List.map_append]
        exact List.Sublist.cons₂ _ hsub₁
      · intro h₀
        apply hcf₁
        rw [List.pairwise_append]
        refine ⟨h₀, List.pairwise_singleton _ _, ?_⟩
        intro a ha b hb
        rw [List.mem_singleton] at hb
        subst hb
        exact hall a ha

theorem removeDupAux_sublist (l : List (List ScheduleItem)) :
    ∀ seen : List String, (removeDupAux seen l).Sublist l := by
  induction l with
  | nil => intro seen; simp [removeDupAux]
  | cons x xs ih =>
    intro seen
    rw [removeDupAux]
    split
    · exact List.Sublist.cons _ (ih seen)
    · exact List.Sublist.cons₂ _ (ih _)

theorem addCandidateSubjects_mem (base : List ScheduleItem) (cs : List Subject)
    (s : List ScheduleItem) (h : s ∈ addCandidateSubjects base cs) :
    ∃ t, s = base ++ t ∧ (t.map itemKey).Sublist (cs.map subjKey) ∧
      (base.Pairwise noConf → s.Pairwise noConf) := by
  rw [addCandidateSubjects, removeDuplicateSchedules] at h
  have h' := (removeDupAux_sublist _ []).subset h
  obtain ⟨s₀, hs₀, t, rfl, hsub, hcf⟩ := foldl_tryAdd_mem cs [base] _ h'
  rw [List.mem_singleton] at hs₀
  subst hs₀
  exact ⟨t, rfl, hsub, hcf⟩

theorem filterSubjects_map_key (l : List Subject) (o : Bool) (c : String) :
    (filterSubjects l o c).map subjKey = l.map subjKey := by
  rw [filterSubjects, List.map_map]
  exact List.map_congr_left fun s _ => rfl

theorem generate_schedules_cases (prio cand : List Subject) (onlyOpen : Bool) (campus : String) :
    (generatePossibleSchedulesWithCandidates prio cand onlyOpen campus).schedules = [] ∨
    ((generatePossibleSchedulesWithCandidates prio cand onlyOpen campus).schedules =
      generateCompatibleCombinationsWithSpecificSections
        (filterSubjects prio onlyOpen campus) ∧ cand = []) ∨
    (generatePossibleSchedulesWithCandidates prio cand onlyOpen campus).schedules =
      (generateCompatibleCombinationsWithSpecificSections
        (filterSubjects prio onlyOpen campus)).flatMap
        (fun ps => addCandidateSubjects ps (filterSubjects cand onlyOpen campus)) := by
  rw [generatePossibleSchedulesWithCandidates]
  split
  · exact Or.inl rfl
  · dsimp only
    split
    · exact Or.inl rfl
    · split
      · exact Or.inl rfl
      · split
        · next hlen =>
          refine Or.inr (Or.inl ⟨rfl, ?_⟩)
          rw [filterSubjects, List.length_map] at hlen
          exact List.length_eq_zero.mp hlen
        · exact Or.inr (Or.inr rfl)

/-- C1 (amended): when the subject+courseNumber keys across the priority and
candidate lists are pairwise distinct, every schedule returned by
`generatePossibleSchedulesWithCandidates` is pairwise conflict-free, contains
exactly one section per priority subject, at most one section per candidate
subject, and at most one section per subject overall (its key list is
duplicate-free). -/
theorem generate_schedules_invariant (prio cand : List Subject)
    (onlyOpen : Bool) (campus : String)
    (hnd : ((prio ++ cand).map subjKey).Nodup) :
    ∀ s ∈ (generatePossibleSchedulesWithCandidates prio cand onlyOpen campus).schedules,
      hasScheduleConflict s = false ∧
      (∀ p ∈ prio, List.count (subjKey p) (s.map itemKey) = 1) ∧
      (∀ c ∈ cand, List.count (subjKey c) (s.map itemKey) ≤ 1) ∧
      (s.map itemKey).Nodup := by
  intro s hs
  rw [List.map_append, List.nodup_append] at hnd
  obtain ⟨hndp, hndc, hdisj⟩ := hnd
  rcases generate_schedules_cases prio cand onlyOpen campus with hcase | ⟨hcase, hcand⟩ | hcase
  · rw [hcase] at hs
    exact absurd hs (List.not_mem_nil s)
  · rw [hcase] at hs
    obtain ⟨hkeys, hcf⟩ := generateCompatible_mem _ s hs
    rw [filterSubjects_map_key] at hkeys
    refine ⟨(hasScheduleConflict_eq_false_iff s).mpr hcf, ?_, ?_, ?_⟩
    · intro p hp
      rw [hkeys]
      have hle := List.nodup_iff_count_le_one.mp hndp (subjKey p)
      have hge := List.count_pos_iff.mpr (List.mem_map_of_mem subjKey hp)
      omega
    · intro c hc
      rw [hcand] at hc
      exact absurd hc (List.not_mem_nil c)
    · rw [hkeys]
      exact hndp
  · rw [hcase] at hs
    rw [List.mem_flatMap] at hs
    obtain ⟨ps, hps, hsin⟩ := hs
    obtain ⟨hpkeys, hpcf⟩ := generateCompatible_mem _ ps hps
    rw [filterSubjects_map_key] at hpkeys
    obtain ⟨t, rfl, htsub, hcf⟩ := addCandidateSubjects_mem ps _ _ hsin
    rw [filterSubjects_map_key] at htsub
    have hskeys : (ps ++ t).map itemKey = prio.map subjKey ++ t.map itemKey := by
      rw [List.map_append, hpkeys]
    refine ⟨(hasScheduleConflict_eq_false_iff _).mpr (hcf hpcf), ?_, ?_, ?_⟩
    · intro p hp
      rw [hskeys, List.count_append]
      have hmemp : subjKey p ∈ prio.map subjKey := List.mem_map_of_mem subjKey hp
      have hle := List.nodup_iff_count_le_one.mp hndp (subjKey p)
      have hge := List.count_pos_iff.mpr hmemp
      have hnotc : subjKey p ∉ cand.map subjKey := hdisj hmemp
      have hzero : List.count (subjKey p) (cand.map subjKey) = 0 :=
        List.count_eq_zero.mpr hnotc
      have htle := htsub.count_le (subjKey p)
      omega
    · intro c hc
      rw [hskeys, List.count_append]
      have hmemc : subjKey c ∈ cand.map subjKey := List.mem_map_of_mem subjKey hc
      have hnotp : subjKey c ∉ prio.map subjKey := by
        intro hmem
        exact hdisj hmem hmemc
      have hzero : List.count (subjKey c) (prio.map subjKey) = 0 :=
        List.count_eq_zero.mpr hnotp
      have hcle := List.nodup_iff_count_le_one.mp hndc (subjKey c)
      have htle := htsub.count_le (subjKey c)
      omega
    · rw [hskeys]
      have hnodup : (prio.map subjKey ++ cand.map subjKey).Nodup :=
        List.nodup_append.mpr ⟨hndp, hndc, hdisj⟩
      exact hnodup.sublist (htsub.append_left (prio.map subjKey))

/-- C1 counterexample: supplying the same subject MAT101 (one meeting-free
open section) both as priority and as candidate returns a schedule holding
two sections of that subject, so a priority subject is not present exactly
once and a subject is not limited to one chosen section. -/
theorem generate_duplicate_subject_counterexample :
    (generatePossibleSchedulesWithCandidates
        [Subject.mk "MAT101" "MAT" "101" "Calculo" 4 [Section.mk "A" true "" "" []]]
        [Subject.mk "MAT101" "MAT" "101" "Calculo" 4 [Section.mk "A" true "" "" []]]
        true "").schedules =
      [[mkItem (Subject.mk "MAT101" "MAT" "101" "Calculo" 4 [Section.mk "A" true "" "" []])
          (Section.mk "A" true "" "" [])],
       [mkItem (Subject.mk "MAT101" "MAT" "101" "Calculo" 4 [Section.mk "A" true "" "" []])
          (Section.mk "A" true "" "" []),
        mkItem (Subject.mk "MAT101" "MAT" "101" "Calculo" 4 [Section.mk "A" true "" "" []])
          (Section.mk "A" true "" "" [])]] ∧
    List.count
      (subjKey (Subject.mk "MAT101" "MAT" "101" "Calculo" 4 [Section.mk "A" true "" "" []]))
      (([mkItem (Subject.mk "MAT101" "MAT" "101" "Calculo" 4 [Section.mk "A" true "" "" []])
          (Section.mk "A" true "" "" []),
        mkItem (Subject.mk "MAT101" "MAT" "101" "Calculo" 4 [Section.mk "A" true "" "" []])
          (Section.mk "A" true "" "" [])]).map itemKey) = 2 := by
  refine ⟨?_, ?_⟩ <;> decide

/-- Witness for `generate_schedules_invariant` at one priority subject with a
single open, meeting-free section and no candidates. -/
theorem generate_schedules_invariant_witness :
    ((([Subject.mk "MAT101" "MAT" "101" "Calculo" 4 [Section.mk "A" true "" "" []]] ++
        ([] : List Subject)).map subjKey).Nodup) ∧
    (hasScheduleConflict
        [mkItem (Subject.mk "MAT101" "MAT" "101" "Calculo" 4 [Section.mk "A" true "" "" []])
          (Section.mk "A" true "" "" [])] = false ∧
      (∀ p ∈ [Subject.mk "MAT101" "MAT" "101" "Calculo" 4 [Section.mk "A" true "" "" []]],
        List.count (subjKey p)
          (([mkItem (Subject.mk "MAT101" "MAT" "101" "Calculo" 4 [Section.mk "A" true "" "" []])
              (Section.mk "A" true "" "" [])]).map itemKey) = 1) ∧
      (∀ c ∈ ([] : List Subject),
        List.count (subjKey c)
          (([mkItem (Subject.mk "MAT101" "MAT" "101" "Calculo" 4 [Section.mk "A" true "" "" []])
              (Section.mk "A" true "" "" [])]).map itemKey) ≤ 1) ∧
      (([mkItem (Subject.mk "MAT101" "MAT" "101" "Calculo" 4 [Section.mk "A" true "" "" []])
          (Section.mk "A" true "" "" [])]).map itemKey).Nodup) :=
  ⟨by decide,
   generate_schedules_invariant
     [Subject.mk "MAT101" "MAT" "101" "Calculo" 4 [Section.mk "A" true "" "" []]]
     [] true "" (by decide)
     [mkItem (Subject.mk "MAT101" "MAT" "101" "Calculo" 4 [Section.mk "A" true "" "" []])
       (Section.mk "A" true "" "" [])]
     (by decide)⟩

theorem removeDupAux_nodup_keys (l : List (List ScheduleItem)) :
    ∀ seen : List String,
      ((removeDupAux seen l).map scheduleKey).Nodup ∧
      ∀ k ∈ (removeDupAux seen l).map scheduleKey, k ∉ seen := by
  induction l with
  | nil => intro seen; simp [removeDupAux]
  | cons x xs ih =>
    intro seen
    rw [removeDupAux]
    split
    · exact ih seen
    · next hnot =>
      obtain ⟨hnd, hseen⟩ := ih (scheduleKey x :: seen)
      rw [List.map_cons]
      constructor
      · rw [List.nodup_cons]
        refine ⟨?_, hnd⟩
        intro hmem
        exact (hseen _ hmem) (List.mem_cons_self _ _)
      · intro k hk
        rw [List.mem_cons] at hk
        rcases hk with rfl | hk
        · exact hnot
        · exact fun hs => (hseen k hk) (List.mem_cons_of_mem _ hs)

theorem removeDupAux_covers (l : List (List ScheduleItem)) :
    ∀ (seen : List String) (s : List ScheduleItem), s ∈ l →
      scheduleKey s ∈ seen ∨ scheduleKey s ∈ (removeDupAux seen l).map scheduleKey := by
  induction l with
  | nil => intro seen s hs; exact absurd hs (List.not_mem_nil s)
  | cons x xs ih =>
    intro seen s hs
    rw [removeDupAux]
    rw [List.mem_cons] at hs
    split
    · next hin =>
      rcases hs with rfl | hs
      · exact Or.inl hin
      · exact ih seen s hs
    · next hnot =>
      rcases hs with rfl | hs
      · right
        rw [List.map_cons]
        exact List.mem_cons_self _ _
      · rcases ih (scheduleKey x :: seen) s hs with h | h
        · rw [List.mem_cons] at h
          rcases h with heq | h
          · right
            rw [List.map_cons, heq]
            exact List.mem_cons_self _ _
          · exact Or.inl h
        · right
          rw [List.map_cons]
          exact List.mem_cons_of_mem _ h

theorem removeDupAux_first_kept (l1 : List (List ScheduleItem)) :
    ∀ (seen : List String) (s : List ScheduleItem) (l2 : List (List ScheduleItem)),
      scheduleKey s ∉ seen → scheduleKey s ∉ l1.map scheduleKey →
      s ∈ removeDupAux seen (l1 ++ s :: l2) := by
  induction l1 with
  | nil =>
    intro seen s l2 hseen _
    rw [List.nil_append, removeDupAux, if_neg hseen]
    exact List.mem_cons_self _ _
  | cons x xs ih =>
    intro seen s l2 hseen hl1
    rw [List.map_cons, List.mem_cons] at hl1
    push_neg at hl1
    rw [List.cons_append, removeDupAux]
    split
    · exact ih seen s l2 hseen hl1.2
    · refine List.mem_cons_of_mem _ (ih _ s l2 ?_ hl1.2)
      rw [List.mem_cons]
      push_neg
      exact ⟨hl1.1, hseen⟩

/-- C3 (amended): deduplication operates on canonical keys — the schedule's
section ids sorted and joined with a dash — rather than on id sets: the
output of `removeDuplicateSchedules` has pairwise distinct keys, is a
subsequence of its input, represents every input key, keeps the first
schedule seen per key, and consequently each augmented family returned by
`addCandidateSubjects` is pairwise key-distinct. -/
theorem dedup_canonical_key_spec :
    (∀ ss : List (List ScheduleItem),
      ((removeDuplicateSchedules ss).map scheduleKey).Nodup) ∧
    (∀ ss : List (List ScheduleItem), (removeDuplicateSchedules ss).Sublist ss) ∧
    (∀ (ss : List (List ScheduleItem)) (s : List ScheduleItem), s ∈ ss →
      ∃ u ∈ removeDuplicateSchedules ss, scheduleKey u = scheduleKey s) ∧
    (∀ (l1 l2 : List (List ScheduleItem)) (s : List ScheduleItem),
      scheduleKey s ∉ l1.map scheduleKey →
      s ∈ removeDuplicateSchedules (l1 ++ s :: l2)) ∧
    (∀ (base : List ScheduleItem) (cs : List Subject),
      ((addCandidateSubjects base cs).map scheduleKey).Nodup) := by
  refine ⟨?_, ?_, ?_, ?_, ?_⟩
  · intro ss
    exact (removeDupAux_nodup_keys ss []).1
  · intro ss
    exact removeDupAux_sublist ss []
  · intro ss s hs
    rcases removeDupAux_covers ss [] s hs with h | h
    · exact absurd h (List.not_mem_nil _)
    · obtain ⟨u, hu, hk⟩ := List.mem_map.mp h
      exact ⟨u, hu, hk⟩
  · intro l1 l2 s h
    exact removeDupAux_first_kept l1 [] s l2 (List.not_mem_nil _) h
  · intro base cs
    rw [addCandidateSubjects]
    exact (removeDupAux_nodup_keys _ []).1

/-- C3 counterexample: a priority subject and a distinct candidate subject
whose sections carry the same id A produce the two returned schedules A and
A-A; they are different schedules with identical id sets, yet both are kept,
so schedules are not deduplicated by id set. -/
theorem dedup_equal_id_set_counterexample :
    (generatePossibleSchedulesWithCandidates
        [Subject.mk "MAT101" "MAT" "101" "Calculo" 4 [Section.mk "A" true "" "" []]]
        [Subject.mk "FIS201" "FIS" "201" "Fisica" 4 [Section.mk "A" true "" "" []]]
        true "").schedules =
      [[mkItem (Subject.mk "MAT101" "MAT" "101" "Calculo" 4 [Section.mk "A" true "" "" []])
          (Section.mk "A" true "" "" [])],
       [mkItem (Subject.mk "MAT101" "MAT" "101" "Calculo" 4 [Section.mk "A" true "" "" []])
          (Section.mk "A" true "" "" []),
        mkItem (Subject.mk "FIS201" "FIS" "201" "Fisica" 4 [Section.mk "A" true "" "" []])
          (Section.mk "A" true "" "" [])]] ∧
    ([mkItem (Subject.mk "MAT101" "MAT" "101" "Calculo" 4 [Section.mk "A" true "" "" []])
        (Section.mk "A" true "" "" [])] ≠
      [mkItem (Subject.mk "MAT101" "MAT" "101" "Calculo" 4 [Section.mk "A" true "" "" []])
          (Section.mk "A" true "" "" []),
       mkItem (Subject.mk "FIS201" "FIS" "201" "Fisica" 4 [Section.mk "A" true "" "" []])
          (Section.mk "A" true "" "" [])]) ∧
    (([mkItem (Subject.mk "MAT101" "MAT" "101" "Calculo" 4 [Section.mk "A" true "" "" []])
        (Section.mk "A" true "" "" [])].map fun item => item.sect.id).toFinset =
      ([mkItem (Subject.mk "MAT101" "MAT" "101" "Calculo" 4 [Section.mk "A" true "" "" []])
          (Section.mk "A" true "" "" []),
        mkItem (Subject.mk "FIS201" "FIS" "201" "Fisica" 4 [Section.mk "A" true "" "" []])
          (Section.mk "A" true "" "" [])].map fun item => item.sect.id).toFinset) := by
  refine ⟨?_, ?_, ?_⟩ <;> decide

/-- Witness for `dedup_canonical_key_spec`: the first-kept clause at a
concrete three-schedule list. -/
theorem dedup_canonical_key_spec_witness :
    (scheduleKey [mkItem (Subject.mk "M" "M" "1" "T" 3 [Section.mk "A" true "" "" []])
        (Section.mk "A" true "" "" [])] ∉
      ([[mkItem (Subject.mk "M" "M" "1" "T" 3 [Section.mk "B" true "" "" []])
          (Section.mk "B" true "" "" [])]]).map scheduleKey) ∧
    [mkItem (Subject.mk "M" "M" "1" "T" 3 [Section.mk "A" true "" "" []])
        (Section.mk "A" true "" "" [])] ∈
      removeDuplicateSchedules
        ([[mkItem (Subject.mk "M" "M" "1" "T" 3 [Section.mk "B" true "" "" []])
            (Section.mk "B" true "" "" [])]] ++
          [mkItem (Subject.mk "M" "M" "1" "T" 3 [Section.mk "A" true "" "" []])
              (Section.mk "A" true "" "" [])] ::
            [[mkItem (Subject.mk "M" "M" "1" "T" 3 [Section.mk "A" true "" "" []])
              (Section.mk "A" true "" "" [])]]) :=
  ⟨by decide,
   dedup_canonical_key_spec.2.2.2.1
     [[mkItem (Subject.mk "M" "M" "1" "T" 3 [Section.mk "B" true "" "" []])
        (Section.mk "B" true "" "" [])]]
     [[mkItem (Subject.mk "M" "M" "1" "T" 3 [Section.mk "A" true "" "" []])
        (Section.mk "A" true "" "" [])]]
     [mkItem (Subject.mk "M" "M" "1" "T" 3 [Section.mk "A" true "" "" []])
        (Section.mk "A" true "" "" [])]
     (by decide)⟩
